import Mathlib

/-!
Verification development for rr's `PerfCounters` subsystem
(`src/PerfCounters.h`).

The repository ships only the class declaration (`PerfCounters.h`); the
member-function bodies live in a translation unit that is not part of the
sources.  Following the header's documentation comments and the design
specification, the missing bodies are modelled here as an explicit
state-transition system: a `PerfCounters` record carrying the declared
fields (`counting`, `started`, `tid`, and the five `ScopedFd` members)
plus model-level counter registers, and pure functions for `reset`,
`stop`, `stop_counting`, `read_ticks`, `read_extra`, `ticks_interrupt_fd`
and `is_ticks_attr`.  The traced thread's activity is modelled by a `tick`
event step, and platform capabilities (whether counters can be opened,
whether suspension physically halts the hardware) by a `KernelCaps`
record, so that every guarantee is proved for both platform branches.
-/

set_option autoImplicit false

namespace rr

/-- Scoped Counter Resource wrapping one kernel counter handle.  The
`ScopedFd` header is not among the sources.  Modelled from the spec:
it owns one handle (`-1` when closed), closes exactly once and
idempotently, and opens lazily. -/
structure ScopedFd where
  fd : Int
deriving DecidableEq, Repr

/-- A closed (invalid) file descriptor, rr's `-1` convention. -/
def ScopedFd.closed : ScopedFd := ⟨-1⟩

/-- Whether the handle is currently open (a valid fd is nonnegative). -/
def ScopedFd.isOpen (f : ScopedFd) : Bool := decide (0 ≤ f.fd)

/-- Closing is idempotent: the result is the closed handle regardless. -/
def ScopedFd.close (_ : ScopedFd) : ScopedFd := ScopedFd.closed

/-- Lazy (re)opening: keep an already-open handle, otherwise open anew
with handle value `n`. -/
def ScopedFd.ensureOpen (f : ScopedFd) (n : Int) : ScopedFd :=
  if f.isOpen then f else ⟨n⟩

/-- Raw handle accessor, as `ScopedFd::get()`. -/
def ScopedFd.get (f : ScopedFd) : Int := f.fd

/-- Kinds of hardware events the Manager can monitor: ticks (retired
conditional branches, the progress proxy) and the three auxiliary
events. -/
inductive PerfEventType where
  | ticks
  | pageFaults
  | hwInterrupts
  | instructionsRetired
deriving DecidableEq, Repr

/-- Counter configuration descriptor, the model of `struct
perf_event_attr` as far as this component inspects it: the monitored
event, whether ticks inside later-aborted hardware transactions are
excluded, and the sample period (0 meaning no interrupt threshold). -/
structure PerfEventAttr where
  eventType : PerfEventType
  excludeAbortedTx : Bool
  samplePeriod : Nat
deriving DecidableEq, Repr

/-- Modelled from the spec (header lines 99-104): the primary tick
counter measures ticks excluding those in aborted transactions and does
not support a sample period. -/
def ticks_measure_attr : PerfEventAttr :=
  { eventType := .ticks, excludeAbortedTx := true, samplePeriod := 0 }

/-- Modelled from the spec (header lines 99-104): the interrupt tick
counter does not exclude ticks in aborted transactions and carries the
armed sample period. -/
def ticks_interrupt_attr (period : Nat) : PerfEventAttr :=
  { eventType := .ticks, excludeAbortedTx := false, samplePeriod := period }

/-- Auxiliary counter configuration: page faults. -/
def page_faults_attr : PerfEventAttr :=
  { eventType := .pageFaults, excludeAbortedTx := false, samplePeriod := 0 }

/-- Auxiliary counter configuration: hardware interrupts. -/
def hw_interrupts_attr : PerfEventAttr :=
  { eventType := .hwInterrupts, excludeAbortedTx := false, samplePeriod := 0 }

/-- Auxiliary counter configuration: instructions retired. -/
def instructions_retired_attr : PerfEventAttr :=
  { eventType := .instructionsRetired, excludeAbortedTx := false, samplePeriod := 0 }

/-- Modelled from the spec: `PerfCounters::is_ticks_attr` (declared only
in the header) classifies a descriptor as the tick-counting
configuration versus the auxiliary configurations. -/
def is_ticks_attr (a : PerfEventAttr) : Bool :=
  match a.eventType with
  | .ticks => true
  | _ => false

/-- The fixed interrupt signal, `TIME_SLICE_SIGNAL = SIGSTKFLT` (header
line 82); `SIGSTKFLT` is signal number 16 on Linux. -/
def TIME_SLICE_SIGNAL : Nat := 16

/-- Platform capabilities, resolved once per process.  Modelled from the
spec: whether the kernel counter facility can open/program the required
counters at all, and whether suspending via `stop_counting` physically
halts hardware counting on this kernel version (a platform-dependent
optimization). -/
structure KernelCaps where
  open_ok : Bool
  hw_halts_on_suspend : Bool
deriving DecidableEq, Repr

/-- Extra Metrics Snapshot (`PerfCounters::Extra`, header lines 84-90);
the default constructor zeroes every field. -/
structure Extra where
  page_faults : Int
  hw_interrupts : Int
  instructions_retired : Int
deriving DecidableEq, Repr

/-- The `Extra()` default constructor (header line 85). -/
def Extra.default : Extra :=
  { page_faults := 0, hw_interrupts := 0, instructions_retired := 0 }

/-- Real code (header line 45): the process-wide extra-counters flag is
the compile-time constant `false`. -/
def extra_perf_counters_enabled : Bool := false

/-- Tick Counter Manager state.  The fields `tid`, `counting`, `started`
and the five `ScopedFd` members are the declared data members of
`class PerfCounters` (header lines 95-108).  The remaining fields are
the model of the kernel-side state the fds denote: the accumulated
counts since the last `reset`, the armed threshold, and the interrupt
signals delivered since the last `reset`. -/
structure PerfCounters where
  tid : Int
  counting : Bool
  started : Bool
  fd_ticks_measure : ScopedFd
  fd_ticks_interrupt : ScopedFd
  fd_page_faults : ScopedFd
  fd_hw_interrupts : ScopedFd
  fd_instructions_retired : ScopedFd
  ticks_measure_count : Nat
  ticks_interrupt_count : Nat
  page_fault_count : Nat
  hw_interrupt_count : Nat
  instructions_retired_count : Nat
  ticks_period : Nat
  signals : List Nat
deriving DecidableEq, Repr

namespace PerfCounters

/-- Modelled from the spec: the constructor `PerfCounters(pid_t tid)`
(declared only) binds the tid and opens nothing: no open counters,
`started = false`, `counting = false`. -/
def construct (t : Int) : PerfCounters :=
  { tid := t
    counting := false
    started := false
    fd_ticks_measure := ScopedFd.closed
    fd_ticks_interrupt := ScopedFd.closed
    fd_page_faults := ScopedFd.closed
    fd_hw_interrupts := ScopedFd.closed
    fd_instructions_retired := ScopedFd.closed
    ticks_measure_count := 0
    ticks_interrupt_count := 0
    page_fault_count := 0
    hw_interrupt_count := 0
    instructions_retired_count := 0
    ticks_period := 0
    signals := [] }

/-- Modelled from the spec: `set_tid` rebinds the Manager to a new
kernel thread id and does not itself open or close counters. -/
def set_tid (s : PerfCounters) (t : Int) : PerfCounters := { s with tid := t }

/-- Failure taxonomy of `reset`: the counter facility is absent, the
event type unsupported, or permission denied — fatal, surfaced
synchronously. -/
inductive ResetError where
  | resourceUnavailable
deriving DecidableEq, Repr

/-- The state produced by a successful `reset`: (re)open the two tick
counters (and the auxiliary counters when the process-wide flag is
enabled), zero every counted value, arm the threshold, clear pending
signals, and mark the Manager counting and started. -/
def resetState (p : Nat) (s : PerfCounters) : PerfCounters :=
  { s with
    counting := true
    started := true
    fd_ticks_measure := s.fd_ticks_measure.ensureOpen 3
    fd_ticks_interrupt := s.fd_ticks_interrupt.ensureOpen 4
    fd_page_faults :=
      if extra_perf_counters_enabled then s.fd_page_faults.ensureOpen 5
      else s.fd_page_faults
    fd_hw_interrupts :=
      if extra_perf_counters_enabled then s.fd_hw_interrupts.ensureOpen 6
      else s.fd_hw_interrupts
    fd_instructions_retired :=
      if extra_perf_counters_enabled then s.fd_instructions_retired.ensureOpen 7
      else s.fd_instructions_retired
    ticks_measure_count := 0
    ticks_interrupt_count := 0
    page_fault_count := 0
    hw_interrupt_count := 0
    instructions_retired_count := 0
    ticks_period := p
    signals := [] }

/-- Modelled from the spec: `reset(ticks_period)` (header lines 47-55)
resets all counter values to 0 and programs the counters to send
`TIME_SLICE_SIGNAL` when `ticks_period` tick events have elapsed.
Inability to open or program the required counters is fatal and is
surfaced to the caller synchronously, with no partial or degraded
success. -/
def reset (caps : KernelCaps) (p : Nat) (s : PerfCounters) :
    Except ResetError PerfCounters :=
  if caps.open_ok then Except.ok (resetState p s)
  else Except.error ResetError.resourceUnavailable

/-- Modelled from the spec: `stop()` (header lines 57-61) closes the
perfcounter fds unconditionally and idempotently; they will be reopened
if/when `reset` is called again. -/
def stop (s : PerfCounters) : PerfCounters :=
  { s with
    counting := false
    started := false
    fd_ticks_measure := s.fd_ticks_measure.close
    fd_ticks_interrupt := s.fd_ticks_interrupt.close
    fd_page_faults := s.fd_page_faults.close
    fd_hw_interrupts := s.fd_hw_interrupts.close
    fd_instructions_retired := s.fd_instructions_retired.close }

/-- Real code (header line 39): `~PerfCounters() { stop(); }` — the
destructor performs the `stop` transition. -/
def destruct (s : PerfCounters) : PerfCounters := s.stop

/-- Modelled from the spec: `stop_counting()` (header lines 63-68)
suspends counting until the next `reset`.  Whether the hardware
counters are physically halted is platform-dependent (see
`KernelCaps.hw_halts_on_suspend`, consulted by the event step); the
externally observable effect is only `counting := false`, which disarms
signal delivery. -/
def stop_counting (s : PerfCounters) : PerfCounters :=
  { s with counting := false }

/-- Modelled from the spec: `read_ticks()` (header lines 70-73) reads
the current value of the ticks counter, i.e. the primary (measure)
counter accumulated since the last `reset`. -/
def read_ticks (s : PerfCounters) : Nat := s.ticks_measure_count

/-- Modelled from the spec: `read_extra()` (header line 91) returns the
accumulated auxiliary counts when `extra_perf_counters_enabled()`, and
a default-constructed (all-zero) `Extra` otherwise. -/
def read_extra (s : PerfCounters) : Extra :=
  if extra_perf_counters_enabled then
    { page_faults := (s.page_fault_count : Int)
      hw_interrupts := (s.hw_interrupt_count : Int)
      instructions_retired := (s.instructions_retired_count : Int) }
  else Extra.default

/-- Real code (header line 78): `ticks_interrupt_fd()` returns the fd
last used to generate the ticks-counter signal. -/
def ticks_interrupt_fd (s : PerfCounters) : Int := s.fd_ticks_interrupt.get

/-- Whether every `ScopedFd` member is closed. -/
def allClosed (s : PerfCounters) : Bool :=
  !s.fd_ticks_measure.isOpen && !s.fd_ticks_interrupt.isOpen &&
  !s.fd_page_faults.isOpen && !s.fd_hw_interrupts.isOpen &&
  !s.fd_instructions_retired.isOpen

/-- Modelled from the spec: one countable hardware event generated by
the traced thread (`abortedTx` marks a tick inside a hardware
transaction that was later aborted).  While resources are open and
either counting is active or this platform does not physically halt
counters on suspend, the primary counter counts non-aborted ticks and
the interrupt counter counts every tick; when the armed threshold is
reached with counting active, `TIME_SLICE_SIGNAL` is raised once. -/
def tick (caps : KernelCaps) (abortedTx : Bool) (s : PerfCounters) :
    PerfCounters :=
  if s.started = true ∧ (s.counting = true ∨ caps.hw_halts_on_suspend = false) then
    { s with
      ticks_measure_count := s.ticks_measure_count + (if abortedTx then 0 else 1)
      ticks_interrupt_count := s.ticks_interrupt_count + 1
      signals :=
        if s.counting = true ∧ s.signals = [] ∧ 0 < s.ticks_period ∧
            s.ticks_period ≤ s.ticks_interrupt_count + 1 then
          s.signals ++ [TIME_SLICE_SIGNAL]
        else s.signals }
  else s

end PerfCounters

/-- Events that can occur within one Armed/Suspended epoch, i.e. between
two consecutive `reset` calls: tick events of the traced thread and the
tracer's `stop_counting` suspensions. -/
inductive EpochOp where
  | tick (abortedTx : Bool)
  | stopCounting
deriving DecidableEq, Repr

/-- Whether an epoch event is a tick event. -/
def EpochOp.isTick : EpochOp → Bool
  | .tick _ => true
  | .stopCounting => false

/-- Apply one epoch event to the Manager state. -/
def applyOp (caps : KernelCaps) (s : PerfCounters) : EpochOp → PerfCounters
  | .tick a => s.tick caps a
  | .stopCounting => s.stop_counting

/-- Apply a sequence of epoch events, oldest first. -/
def applyOps (caps : KernelCaps) (ops : List EpochOp) (s : PerfCounters) :
    PerfCounters :=
  ops.foldl (applyOp caps) s

/-- Run a sequence of tick events; each element says whether that tick
happened inside a later-aborted hardware transaction. -/
def runTicks (caps : KernelCaps) (evs : List Bool) (s : PerfCounters) :
    PerfCounters :=
  evs.foldl (fun t a => t.tick caps a) s


/-! ### Basic lemmas about the transition functions -/

theorem ScopedFd.ensureOpen_isOpen (f : ScopedFd) (n : Int) (hn : 0 ≤ n) :
    (f.ensureOpen n).isOpen = true := by
  unfold ScopedFd.ensureOpen
  split
  · assumption
  · simp [ScopedFd.isOpen, hn]

theorem ScopedFd.ensureOpen_of_closed_or (f : ScopedFd) (n : Int) (hn : 0 ≤ n)
    (h : f = ScopedFd.closed ∨ f = ⟨n⟩) : f.ensureOpen n = ⟨n⟩ := by
  rcases h with rfl | rfl
  · rfl
  · unfold ScopedFd.ensureOpen
    rw [if_pos (by simp [ScopedFd.isOpen, hn])]

theorem reset_ok_elim {caps : KernelCaps} {p : Nat} {s s0 : PerfCounters}
    (h : PerfCounters.reset caps p s = Except.ok s0) :
    caps.open_ok = true ∧ s0 = PerfCounters.resetState p s := by
  unfold PerfCounters.reset at h
  by_cases hc : caps.open_ok
  · simp only [hc, if_true, Except.ok.injEq] at h
    exact ⟨hc, h.symm⟩
  · simp [hc] at h

theorem tick_started (caps : KernelCaps) (a : Bool) (s : PerfCounters) :
    (PerfCounters.tick caps a s).started = s.started := by
  unfold PerfCounters.tick; split <;> rfl

theorem tick_counting (caps : KernelCaps) (a : Bool) (s : PerfCounters) :
    (PerfCounters.tick caps a s).counting = s.counting := by
  unfold PerfCounters.tick; split <;> rfl

theorem tick_ticks_period (caps : KernelCaps) (a : Bool) (s : PerfCounters) :
    (PerfCounters.tick caps a s).ticks_period = s.ticks_period := by
  unfold PerfCounters.tick; split <;> rfl

theorem tick_fd_measure (caps : KernelCaps) (a : Bool) (s : PerfCounters) :
    (PerfCounters.tick caps a s).fd_ticks_measure = s.fd_ticks_measure := by
  unfold PerfCounters.tick; split <;> rfl

theorem tick_fd_interrupt (caps : KernelCaps) (a : Bool) (s : PerfCounters) :
    (PerfCounters.tick caps a s).fd_ticks_interrupt = s.fd_ticks_interrupt := by
  unfold PerfCounters.tick; split <;> rfl

/-! ### The armed-epoch invariant behind the interrupt guarantee -/

/-- Invariant of an Armed epoch with threshold `p`: the Manager is
started and counting, the armed threshold is `p`, and the delivered
signals are exactly one `TIME_SLICE_SIGNAL` once the interrupt counter
has reached `p`, none before. -/
def ArmedInv (p : Nat) (s : PerfCounters) : Prop :=
  s.started = true ∧ s.counting = true ∧ s.ticks_period = p ∧
  s.signals = (if p ≤ s.ticks_interrupt_count then [TIME_SLICE_SIGNAL] else [])

theorem tick_armedInv {p : Nat} {s : PerfCounters} (caps : KernelCaps) (a : Bool)
    (hp : 0 < p) (h : ArmedInv p s) :
    ArmedInv p (PerfCounters.tick caps a s) ∧
      (PerfCounters.tick caps a s).ticks_interrupt_count =
        s.ticks_interrupt_count + 1 := by
  obtain ⟨hs, hc, hper, hsig⟩ := h
  unfold PerfCounters.tick
  rw [if_pos ⟨hs, Or.inl hc⟩]
  refine ⟨⟨hs, hc, hper, ?_⟩, rfl⟩
  show (if s.counting = true ∧ s.signals = [] ∧ 0 < s.ticks_period ∧
          s.ticks_period ≤ s.ticks_interrupt_count + 1 then
        s.signals ++ [TIME_SLICE_SIGNAL] else s.signals) =
      (if p ≤ s.ticks_interrupt_count + 1 then [TIME_SLICE_SIGNAL] else [])
  by_cases hle : p ≤ s.ticks_interrupt_count
  · have h1 : s.signals = [TIME_SLICE_SIGNAL] := by rw [hsig, if_pos hle]
    have h2 : p ≤ s.ticks_interrupt_count + 1 := Nat.le_succ_of_le hle
    rw [if_neg (by simp [h1]), h1, if_pos h2]
  · have h1 : s.signals = [] := by rw [hsig, if_neg hle]
    by_cases h2 : p ≤ s.ticks_interrupt_count + 1
    · rw [if_pos ⟨hc, h1, hper ▸ hp, hper ▸ h2⟩, h1, if_pos h2]
      rfl
    · rw [if_neg (by rw [hper]; tauto), h1, if_neg h2]

theorem runTicks_armedInv {p : Nat} (caps : KernelCaps) (evs : List Bool)
    {s : PerfCounters} (hp : 0 < p) (h : ArmedInv p s) :
    ArmedInv p (runTicks caps evs s) ∧
      (runTicks caps evs s).ticks_interrupt_count =
        s.ticks_interrupt_count + evs.length := by
  induction evs generalizing s with
  | nil => exact ⟨h, rfl⟩
  | cons a evs ih =>
      have step := tick_armedInv caps a hp h
      have hrun : runTicks caps (a :: evs) s =
          runTicks caps evs (PerfCounters.tick caps a s) := rfl
      rw [hrun]
      obtain ⟨h1, h2⟩ := ih step.1
      refine ⟨h1, ?_⟩
      rw [h2, step.2, List.length_cons]
      omega

/-! ### Monotonicity of the primary tick counter within an epoch -/

theorem applyOp_read_ticks_bounds (caps : KernelCaps) (s : PerfCounters)
    (op : EpochOp) :
    s.read_ticks ≤ (applyOp caps s op).read_ticks ∧
      (applyOp caps s op).read_ticks ≤
        s.read_ticks + (if op.isTick then 1 else 0) := by
  cases op with
  | tick a =>
      have he : applyOp caps s (EpochOp.tick a) = PerfCounters.tick caps a s := rfl
      rw [he]
      unfold PerfCounters.tick
      split
      · cases a <;>
          exact ⟨by simp [PerfCounters.read_ticks, EpochOp.isTick],
            by simp [PerfCounters.read_ticks, EpochOp.isTick]⟩
      · exact ⟨Nat.le_refl _, by simp [EpochOp.isTick]⟩
  | stopCounting =>
      exact ⟨Nat.le_refl _,
        by simp [applyOp, PerfCounters.stop_counting, PerfCounters.read_ticks,
          EpochOp.isTick]⟩

theorem applyOps_cons (caps : KernelCaps) (op : EpochOp) (ops : List EpochOp)
    (s : PerfCounters) :
    applyOps caps (op :: ops) s = applyOps caps ops (applyOp caps s op) := rfl

theorem applyOps_read_ticks_mono (caps : KernelCaps) (ops : List EpochOp)
    (s : PerfCounters) :
    s.read_ticks ≤ (applyOps caps ops s).read_ticks := by
  induction ops generalizing s with
  | nil => exact Nat.le_refl _
  | cons op ops ih =>
      rw [applyOps_cons]
      exact Nat.le_trans (applyOp_read_ticks_bounds caps s op).1
        (ih (applyOp caps s op))

theorem applyOps_read_ticks_le (caps : KernelCaps) (ops : List EpochOp)
    (s : PerfCounters) :
    (applyOps caps ops s).read_ticks ≤
      s.read_ticks + List.countP EpochOp.isTick ops := by
  induction ops generalizing s with
  | nil => simp [applyOps]
  | cons op ops ih =>
      rw [applyOps_cons, List.countP_cons]
      have h1 := ih (applyOp caps s op)
      have h2 := (applyOp_read_ticks_bounds caps s op).2
      by_cases hop : op.isTick = true <;> simp [hop] at h2 ⊢ <;> omega

/-! ### No signal delivery while counting is suspended -/

theorem applyOp_not_counting {s : PerfCounters} (caps : KernelCaps)
    (op : EpochOp) (h : s.counting = false) :
    (applyOp caps s op).counting = false ∧
      (applyOp caps s op).signals = s.signals := by
  cases op with
  | tick a =>
      have he : applyOp caps s (EpochOp.tick a) = PerfCounters.tick caps a s := rfl
      rw [he]
      unfold PerfCounters.tick
      split
      · refine ⟨h, ?_⟩
        show (if s.counting = true ∧ s.signals = [] ∧ 0 < s.ticks_period ∧
            s.ticks_period ≤ s.ticks_interrupt_count + 1 then
          s.signals ++ [TIME_SLICE_SIGNAL] else s.signals) = s.signals
        rw [if_neg]
        intro hcon
        rw [h] at hcon
        exact Bool.false_ne_true hcon.1
      · exact ⟨h, rfl⟩
  | stopCounting => exact ⟨rfl, rfl⟩

theorem applyOps_not_counting {s : PerfCounters} (caps : KernelCaps)
    (ops : List EpochOp) (h : s.counting = false) :
    (applyOps caps ops s).counting = false ∧
      (applyOps caps ops s).signals = s.signals := by
  induction ops generalizing s with
  | nil => exact ⟨h, rfl⟩
  | cons op ops ih =>
      rw [applyOps_cons]
      obtain ⟨h1, h2⟩ := applyOp_not_counting caps op h
      obtain ⟨h3, h4⟩ := ih h1
      exact ⟨h3, h4.trans h2⟩

/-! ### Reachable states and the two-tick-counter invariant -/

/-- States reachable from construction through the public operations
(and traced-thread tick events) on a fixed platform. -/
inductive Reachable (caps : KernelCaps) : PerfCounters → Prop where
  | constructed (t : Int) : Reachable caps (PerfCounters.construct t)
  | resetStep {s s' : PerfCounters} (p : Nat) :
      Reachable caps s → PerfCounters.reset caps p s = Except.ok s' →
      Reachable caps s'
  | stopStep {s : PerfCounters} : Reachable caps s → Reachable caps s.stop
  | stopCountingStep {s : PerfCounters} :
      Reachable caps s → Reachable caps s.stop_counting
  | tickStep {s : PerfCounters} (a : Bool) :
      Reachable caps s → Reachable caps (PerfCounters.tick caps a s)
  | setTidStep {s : PerfCounters} (t : Int) :
      Reachable caps s → Reachable caps (s.set_tid t)

/-- Handle invariant: the primary tick counter's handle is closed or
`3`, the interrupt tick counter's handle is closed or `4`, and whenever
the Manager is started both are open, hence distinct. -/
def FdInv (s : PerfCounters) : Prop :=
  (s.fd_ticks_measure = ScopedFd.closed ∨ s.fd_ticks_measure = ⟨3⟩) ∧
  (s.fd_ticks_interrupt = ScopedFd.closed ∨ s.fd_ticks_interrupt = ⟨4⟩) ∧
  (s.started = true →
    s.fd_ticks_measure = ⟨3⟩ ∧ s.fd_ticks_interrupt = ⟨4⟩)

theorem reachable_fdInv {caps : KernelCaps} {s : PerfCounters}
    (h : Reachable caps s) : FdInv s := by
  induction h with
  | constructed t =>
      refine ⟨Or.inl rfl, Or.inl rfl, fun hs => ?_⟩
      simp [PerfCounters.construct] at hs
  | resetStep p hr hok ih =>
      obtain ⟨-, rfl⟩ := reset_ok_elim hok
      have h3 := ScopedFd.ensureOpen_of_closed_or _ 3 (by omega) ih.1
      have h4 := ScopedFd.ensureOpen_of_closed_or _ 4 (by omega) ih.2.1
      exact ⟨Or.inr h3, Or.inr h4, fun _ => ⟨h3, h4⟩⟩
  | stopStep hr ih =>
      refine ⟨Or.inl rfl, Or.inl rfl, fun hs => ?_⟩
      simp [PerfCounters.stop] at hs
  | stopCountingStep hr ih => exact ih
  | tickStep a hr ih =>
      unfold FdInv
      rw [tick_fd_measure, tick_fd_interrupt, tick_started]
      exact ih
  | setTidStep t hr ih => exact ih

/-! ### Concrete states used by the witnesses -/

/-- A platform on which counters open successfully and suspension halts
the hardware. -/
def capsT : KernelCaps := { open_ok := true, hw_halts_on_suspend := true }

/-- The Manager for tid 1 right after a successful `reset 100`. -/
def armedExample : PerfCounters :=
  PerfCounters.resetState 100 (PerfCounters.construct 1)

/-- The Manager for tid 1 right after a successful `reset 2`. -/
def armedTwo : PerfCounters :=
  PerfCounters.resetState 2 (PerfCounters.construct 1)

/-- Whether a `reset` call returned successfully. -/
def resetSucceeded : Except PerfCounters.ResetError PerfCounters → Bool
  | Except.ok _ => true
  | Except.error _ => false

/-! ### The claims -/

/-- C1: for every `ticks_period > 0`, after `reset(ticks_period)` returns
successfully and the traced thread has generated at least `ticks_period`
countable events, the fixed interrupt signal `TIME_SLICE_SIGNAL` has been
raised exactly once since that reset, and the signal is never raised
before `ticks_period` events have elapsed. -/
theorem C1_interrupt_signal_exactly_once (caps : KernelCaps) (p : Nat)
    (s s0 : PerfCounters) (evs : List Bool)
    (h : PerfCounters.reset caps p s = Except.ok s0) (hp : 0 < p) :
    (p ≤ evs.length → (runTicks caps evs s0).signals = [TIME_SLICE_SIGNAL]) ∧
    (evs.length < p → (runTicks caps evs s0).signals = []) := by
  obtain ⟨-, rfl⟩ := reset_ok_elim h
  have hinv : ArmedInv p (PerfCounters.resetState p s) := by
    refine ⟨rfl, rfl, rfl, ?_⟩
    have hz : (PerfCounters.resetState p s).ticks_interrupt_count = 0 := rfl
    rw [hz, if_neg (by omega)]
    rfl
  obtain ⟨⟨-, -, -, hsig⟩, hcount⟩ := runTicks_armedInv caps evs hp hinv
  have hz : (PerfCounters.resetState p s).ticks_interrupt_count = 0 := rfl
  rw [hz] at hcount
  constructor
  · intro hle
    rw [hsig, hcount, if_pos (by omega)]
  · intro hlt
    rw [hsig, hcount, if_neg (by omega)]

/-- Witness for C1: period 2, two countable events, signal raised once. -/
theorem C1_interrupt_signal_exactly_once_witness :
    (runTicks capsT [false, false] armedTwo).signals = [TIME_SLICE_SIGNAL] :=
  (C1_interrupt_signal_exactly_once capsT 2 (PerfCounters.construct 1) armedTwo
    [false, false] rfl (by decide)).1 (by decide)

/-- C2: after a successful `reset(ticks_period)` the Manager is Armed:
`counting = true`, `started = true`, the primary and interrupt tick
counters are open, and every counted value (and the pending-signal list)
is reset to zero. -/
theorem C2_reset_postcondition (caps : KernelCaps) (p : Nat)
    (s s0 : PerfCounters) (h : PerfCounters.reset caps p s = Except.ok s0) :
    s0.counting = true ∧ s0.started = true ∧
    s0.fd_ticks_measure.isOpen = true ∧ s0.fd_ticks_interrupt.isOpen = true ∧
    s0.ticks_measure_count = 0 ∧ s0.ticks_interrupt_count = 0 ∧
    s0.page_fault_count = 0 ∧ s0.hw_interrupt_count = 0 ∧
    s0.instructions_retired_count = 0 ∧ s0.signals = [] := by
  obtain ⟨-, rfl⟩ := reset_ok_elim h
  exact ⟨rfl, rfl, ScopedFd.ensureOpen_isOpen _ 3 (by omega),
    ScopedFd.ensureOpen_isOpen _ 4 (by omega), rfl, rfl, rfl, rfl, rfl, rfl⟩

/-- Witness for C2 at `reset 100` from a fresh Manager for tid 1. -/
theorem C2_reset_postcondition_witness :
    armedExample.counting = true ∧ armedExample.started = true ∧
    armedExample.fd_ticks_measure.isOpen = true ∧
    armedExample.fd_ticks_interrupt.isOpen = true ∧
    armedExample.ticks_measure_count = 0 ∧
    armedExample.ticks_interrupt_count = 0 ∧
    armedExample.page_fault_count = 0 ∧ armedExample.hw_interrupt_count = 0 ∧
    armedExample.instructions_retired_count = 0 ∧ armedExample.signals = [] :=
  C2_reset_postcondition capsT 100 (PerfCounters.construct 1) armedExample rfl

/-- C3: after `stop_counting` the counting flag is false (Suspended), no
owned resource is closed by the suspension itself, and no interrupt
signal is raised by any further epoch events until the next reset. -/
theorem C3_stop_counting_suspends (caps : KernelCaps) (s : PerfCounters)
    (ops : List EpochOp) :
    (s.stop_counting).counting = false ∧
    (s.stop_counting).started = s.started ∧
    (s.stop_counting).fd_ticks_measure = s.fd_ticks_measure ∧
    (s.stop_counting).fd_ticks_interrupt = s.fd_ticks_interrupt ∧
    (s.stop_counting).fd_page_faults = s.fd_page_faults ∧
    (s.stop_counting).fd_hw_interrupts = s.fd_hw_interrupts ∧
    (s.stop_counting).fd_instructions_retired = s.fd_instructions_retired ∧
    (applyOps caps ops s.stop_counting).signals = s.signals := by
  refine ⟨rfl, rfl, rfl, rfl, rfl, rfl, rfl, ?_⟩
  exact (applyOps_not_counting caps ops rfl).2

/-- C4: within one Armed/Suspended epoch `read_ticks` is monotonically
non-decreasing across any sequence of epoch events, a successful reset
zeroes it, and afterwards its value never exceeds the number of tick
events since that reset — it reflects only events since the most recent
reset. -/
theorem C4_read_ticks_monotone (caps : KernelCaps) (s u s0 : PerfCounters)
    (ops l : List EpochOp) (p : Nat)
    (h : PerfCounters.reset caps p u = Except.ok s0) :
    s.read_ticks ≤ (applyOps caps ops s).read_ticks ∧
    s0.read_ticks = 0 ∧
    (applyOps caps l s0).read_ticks ≤ List.countP EpochOp.isTick l := by
  obtain ⟨-, rfl⟩ := reset_ok_elim h
  refine ⟨applyOps_read_ticks_mono caps ops s, rfl, ?_⟩
  have hle := applyOps_read_ticks_le caps l (PerfCounters.resetState p u)
  have hz : (PerfCounters.resetState p u).read_ticks = 0 := rfl
  rw [hz, Nat.zero_add] at hle
  exact hle

/-- Witness for C4: one tick from a fresh Manager, and a tick followed by
a suspension from a freshly reset Manager. -/
theorem C4_read_ticks_monotone_witness :
    (PerfCounters.construct 2).read_ticks ≤
      (applyOps capsT [EpochOp.tick false]
        (PerfCounters.construct 2)).read_ticks ∧
    armedExample.read_ticks = 0 ∧
    (applyOps capsT [EpochOp.tick false, EpochOp.stopCounting]
        armedExample).read_ticks ≤
      List.countP EpochOp.isTick [EpochOp.tick false, EpochOp.stopCounting] :=
  C4_read_ticks_monotone capsT (PerfCounters.construct 2)
    (PerfCounters.construct 1) armedExample [EpochOp.tick false]
    [EpochOp.tick false, EpochOp.stopCounting] 100 rfl

/-- C5: `stop` is idempotent and callable from any state, including a
never-reset Manager: it closes every owned resource, sets
`counting = false` and `started = false`, calling it twice equals calling
it once, and on a fresh Manager it is a no-op. -/
theorem C5_stop_idempotent (s : PerfCounters) (t : Int) :
    PerfCounters.stop (PerfCounters.stop s) = PerfCounters.stop s ∧
    (PerfCounters.stop s).counting = false ∧
    (PerfCounters.stop s).started = false ∧
    (PerfCounters.stop s).allClosed = true ∧
    PerfCounters.stop (PerfCounters.construct t) = PerfCounters.construct t :=
  ⟨rfl, rfl, rfl, rfl, rfl⟩

/-- C6: a `reset` that cannot open or program the required counters fails
synchronously at the call: the result is an error exactly when the
platform cannot open counters, the error is `resourceUnavailable`, and
there is no degraded success — every successful `reset` leaves the
Manager armed with both tick counters open. -/
theorem C6_reset_failure_surfaced (caps : KernelCaps) (p : Nat)
    (s : PerfCounters) :
    resetSucceeded (PerfCounters.reset caps p s) = caps.open_ok ∧
    (caps.open_ok = false →
      PerfCounters.reset caps p s =
        Except.error PerfCounters.ResetError.resourceUnavailable) ∧
    (∀ s0 : PerfCounters, PerfCounters.reset caps p s = Except.ok s0 →
      s0.started = true ∧ s0.counting = true ∧
      s0.fd_ticks_measure.isOpen = true ∧
      s0.fd_ticks_interrupt.isOpen = true) := by
  refine ⟨?_, ?_, ?_⟩
  · cases hc : caps.open_ok <;> simp [PerfCounters.reset, resetSucceeded, hc]
  · intro hf
    simp [PerfCounters.reset, hf]
  · intro s0 h
    obtain ⟨-, rfl⟩ := reset_ok_elim h
    exact ⟨rfl, rfl, ScopedFd.ensureOpen_isOpen _ 3 (by omega),
      ScopedFd.ensureOpen_isOpen _ 4 (by omega)⟩

/-- Witness for C6: on a platform without counters `reset` returns the
fatal error, and a successful `reset` on a working platform is armed. -/
theorem C6_reset_failure_surfaced_witness :
    PerfCounters.reset { open_ok := false, hw_halts_on_suspend := true } 100
        (PerfCounters.construct 1) =
      Except.error PerfCounters.ResetError.resourceUnavailable ∧
    armedExample.started = true :=
  ⟨(C6_reset_failure_surfaced { open_ok := false, hw_halts_on_suspend := true }
      100 (PerfCounters.construct 1)).2.1 rfl,
    ((C6_reset_failure_surfaced capsT 100 (PerfCounters.construct 1)).2.2
      armedExample rfl).1⟩

/-- C7: in every reachable started state the Manager holds two distinct
open tick-counter resources, whose configurations differ as specified:
the primary counter excludes ticks in aborted transactions and has no
sample period, the interrupt counter includes them and carries the armed
sample period; operationally, a tick inside an aborted transaction
advances the interrupt counter but not the primary counter. -/
theorem C7_two_distinct_tick_counters (caps : KernelCaps) (s : PerfCounters)
    (hr : Reachable caps s) (hs : s.started = true) :
    (s.fd_ticks_measure.isOpen = true ∧ s.fd_ticks_interrupt.isOpen = true ∧
      s.fd_ticks_measure ≠ s.fd_ticks_interrupt) ∧
    (ticks_measure_attr.excludeAbortedTx = true ∧
      ticks_measure_attr.samplePeriod = 0 ∧
      (ticks_interrupt_attr s.ticks_period).excludeAbortedTx = false ∧
      (ticks_interrupt_attr s.ticks_period).samplePeriod = s.ticks_period) ∧
    (s.counting = true →
      (PerfCounters.tick caps true s).read_ticks = s.read_ticks ∧
      (PerfCounters.tick caps true s).ticks_interrupt_count =
        s.ticks_interrupt_count + 1) := by
  obtain ⟨-, -, hmi⟩ := reachable_fdInv hr
  obtain ⟨hm, hi⟩ := hmi hs
  refine ⟨⟨?_, ?_, ?_⟩, ⟨rfl, rfl, rfl, rfl⟩, ?_⟩
  · rw [hm]; rfl
  · rw [hi]; rfl
  · rw [hm, hi]; decide
  · intro hc
    unfold PerfCounters.tick
    rw [if_pos ⟨hs, Or.inl hc⟩]
    exact ⟨rfl, rfl⟩

/-- Witness for C7 at the armed state reached by `reset 100` from a
fresh Manager. -/
theorem C7_two_distinct_tick_counters_witness :
    armedExample.fd_ticks_measure ≠ armedExample.fd_ticks_interrupt ∧
    (PerfCounters.tick capsT true armedExample).read_ticks =
      armedExample.read_ticks :=
  ⟨((C7_two_distinct_tick_counters capsT armedExample
      (Reachable.resetStep 100 (Reachable.constructed 1) rfl) rfl).1).2.2,
    (((C7_two_distinct_tick_counters capsT armedExample
      (Reachable.resetStep 100 (Reachable.constructed 1) rfl) rfl).2.2)
      rfl).1⟩

/-- C8: with the process-wide extra-counters flag disabled — the default
and in fact compile-time value of `extra_perf_counters_enabled()` —
every `read_extra` call returns the all-zero snapshot. -/
theorem C8_read_extra_all_zero (s : PerfCounters) :
    extra_perf_counters_enabled = false ∧
    s.read_extra = Extra.default ∧
    (s.read_extra).page_faults = 0 ∧
    (s.read_extra).hw_interrupts = 0 ∧
    (s.read_extra).instructions_retired = 0 :=
  ⟨rfl, rfl, rfl, rfl, rfl⟩

/-- C9: destroying a Manager performs the `stop` transition, leaving no
owned kernel counter handle open and both flags false. -/
theorem C9_destructor_stops (s : PerfCounters) :
    s.destruct = s.stop ∧ (s.destruct).allClosed = true ∧
    (s.destruct).counting = false ∧ (s.destruct).started = false :=
  ⟨rfl, rfl, rfl, rfl⟩

/-- C10: `is_ticks_attr` returns true on the tick-counting configurations
(the primary descriptor and the interrupt descriptor for any period) and
false on each auxiliary configuration. -/
theorem C10_is_ticks_attr_classification :
    is_ticks_attr ticks_measure_attr = true ∧
    (∀ p : Nat, is_ticks_attr (ticks_interrupt_attr p) = true) ∧
    is_ticks_attr page_faults_attr = false ∧
    is_ticks_attr hw_interrupts_attr = false ∧
    is_ticks_attr instructions_retired_attr = false :=
  ⟨rfl, fun _ => rfl, rfl, rfl, rfl⟩

end rr
